import Mathlib

/-!
# Verification of the n-body-viewer rendering pipeline

A shallow embedding of `src/main.rs` of the `n-body-viewer` repository.
`f64` values are modelled as rationals (`ℚ`); fallible Rust code
(`Result<_, ViewerError>`) is modelled with `Except`; the external world
(file contents, child-process behaviour) is passed in explicitly.
-/

namespace NBodyViewer

/-- Mirror of the `ViewerError` enum produced by the `quick_error!` macro
(`main.rs:19-43`).  `io::Error` payloads are modelled by their message;
`ParseIntError` and `ParseFloatError` are opaque in the source, hence
payload-free here. -/
inductive ViewerError where
  | ioError (msg : String)
  | parseInt
  | parseFloat
  | other (s : String)
deriving DecidableEq, Repr

instance {ε α : Type} [DecidableEq ε] [DecidableEq α] : DecidableEq (Except ε α) :=
  fun a b =>
    match a, b with
    | Except.ok x, Except.ok y =>
      if h : x = y then isTrue (by rw [h])
      else isFalse (by intro hc; cases hc; exact h rfl)
    | Except.error x, Except.error y =>
      if h : x = y then isTrue (by rw [h])
      else isFalse (by intro hc; cases hc; exact h rfl)
    | Except.ok _, Except.error _ => isFalse (by intro hc; cases hc)
    | Except.error _, Except.ok _ => isFalse (by intro hc; cases hc)

/-! ## Character/string helpers mirroring the Rust std functions used -/

/-- ASCII whitespace recognised by the model of `str::trim`. -/
def isWs (c : Char) : Bool := c = ' ' || c = '\t' || c = '\n' || c = '\r'

/-- Model of `str::trim`: drop whitespace from both ends. -/
def trimChars (cs : List Char) : List Char :=
  ((cs.dropWhile isWs).reverse.dropWhile isWs).reverse

/-- Split a character list at every occurrence of `sep`
(model of `str::split(sep)`): `n` separators yield `n + 1` segments. -/
def splitChar (sep : Char) : List Char → List (List Char)
  | [] => [[]]
  | c :: cs =>
    let r := splitChar sep cs
    if c = sep then [] :: r
    else
      match r with
      | [] => [[c]]
      | seg :: rest => (c :: seg) :: rest

/-- Strip one trailing carriage return, as `BufRead::lines` does. -/
def dropTrailingCR (cs : List Char) : List Char :=
  if cs.getLast? = some '\r' then cs.dropLast else cs

/-- Model of `BufRead::lines` applied to the whole file contents:
split on `'\n'`, drop the final empty segment produced by a trailing
newline (or by an empty file), strip a trailing `'\r'` on each line. -/
def rustLines (s : String) : List (List Char) :=
  let segs := splitChar '\n' s.toList
  let segs2 := if segs.getLast? = some [] then segs.dropLast else segs
  segs2.map dropTrailingCR

/-- The filter of `main.rs:148-151`: keep a line when its trimmed form is
nonempty and does not start with `'#'`. -/
def isUsableLine (cs : List Char) : Bool :=
  let t := trimChars cs
  !t.isEmpty && !(t.head? == some '#')

/-- The usable (non-blank, non-comment) lines of a bounds file. -/
def usableLines (ls : List (List Char)) : List (List Char) :=
  ls.filter isUsableLine

/-! ## Model of `str::parse::<f64>` over ℚ

Decimal literals `[+-]? (D+ | D+ '.' D* | D* '.' D+) ([eE][+-]?D+)?` are
parsed exactly; the non-finite spellings (`inf`, `NaN`) accepted by Rust
lie outside the rational model and are rejected. -/

/-- Numeric value of a decimal digit, `none` on any other character. -/
def charDigit (c : Char) : Option Nat :=
  if c.isDigit then some (c.toNat - 48) else none

/-- Value of a (possibly empty) digit string; `none` if any character is
not a digit. -/
def digitsValue (cs : List Char) : Option Nat :=
  cs.foldl
    (fun acc c => do
      let a ← acc
      let d ← charDigit c
      pure (a * 10 + d))
    (some 0)

/-- Break a list at the first character satisfying `p`; the second
component is `none` when no such character occurs. -/
def breakAt (p : Char → Bool) : List Char → List Char × Option (List Char)
  | [] => ([], none)
  | c :: cs =>
    if p c then ([], some cs)
    else
      let r := breakAt p cs
      (c :: r.1, r.2)

/-- Strip an optional leading sign, returning its value. -/
def parseSign : List Char → ℚ × List Char
  | '-' :: cs => (-1, cs)
  | '+' :: cs => (1, cs)
  | cs => (1, cs)

/-- Parse the exponent part (after `e`/`E`): optional sign then at least
one digit. -/
def parseExponent (cs : List Char) : Option Int :=
  let sr : Int × List Char :=
    match cs with
    | '-' :: r => (-1, r)
    | '+' :: r => (1, r)
    | r => (1, r)
  if sr.2.isEmpty then none
  else (digitsValue sr.2).map (fun n => sr.1 * n)

/-- Parse an unsigned mantissa `D+ | D+ '.' D* | D* '.' D+`. -/
def parseMantissa (cs : List Char) : Option ℚ :=
  let br := breakAt (fun c => c = '.') cs
  match br.2 with
  | none =>
    if br.1.isEmpty then none
    else (digitsValue br.1).map (fun n => (n : ℚ))
  | some fp =>
    if br.1.isEmpty && fp.isEmpty then none
    else do
      let n ← digitsValue br.1
      let f ← digitsValue fp
      pure ((n : ℚ) + (f : ℚ) / (10 : ℚ) ^ fp.length)

/-- Model of `str::parse::<f64>` (finite decimal grammar) into ℚ. -/
def parseFloatChars (cs : List Char) : Option ℚ :=
  let sc := parseSign cs
  if sc.2.isEmpty then none
  else
    let br := breakAt (fun c => c = 'e' || c = 'E') sc.2
    do
      let m ← parseMantissa br.1
      let e ←
        match br.2 with
        | none => pure (0 : Int)
        | some ecs => parseExponent ecs
      pure (sc.1 * m * (10 : ℚ) ^ e)

/-! ## `read_bounds` and bounds resolution (`main.rs:138-166, 268-274`) -/

/-- `read_bounds` (`main.rs:268-274`): split on `' '`, trim each token,
drop empty tokens, parse each remaining token as a float; the first parse
failure aborts with a `ParseFloat` error. -/
def readBoundsChars (cs : List Char) : Except ViewerError (List ℚ) :=
  (((splitChar ' ' cs).map trimChars).filter (fun t => !t.isEmpty)).mapM
    (fun t =>
      match parseFloatChars t with
      | some q => Except.ok q
      | none => Except.error ViewerError.parseFloat)

/-- `read_bounds` on a Lean `String`. -/
def read_bounds (s : String) : Except ViewerError (List ℚ) :=
  readBoundsChars s.toList

/-- The file branch of bounds resolution (`main.rs:143-162`): filter to
usable lines, parse the first as min bounds, the second as max bounds;
each missing line yields its own `Other` error. -/
def resolveBoundsFromFile (contents : String) : Except ViewerError (List ℚ × List ℚ) :=
  match usableLines (rustLines contents) with
  | [] => Except.error (ViewerError.other "min bounds line missing")
  | l1 :: rest =>
    match readBoundsChars l1 with
    | Except.error e => Except.error e
    | Except.ok minB =>
      match rest with
      | [] => Except.error (ViewerError.other "max bounds line missing")
      | l2 :: _ =>
        match readBoundsChars l2 with
        | Except.error e => Except.error e
        | Except.ok maxB => Except.ok (minB, maxB)

/-- Bounds resolution (`main.rs:138-163`).  `ov` holds the
`--min-bounds`/`--max-bounds` override strings when supplied (clap's
`requires` makes them appear together); `fileContents` is the outcome of
opening and reading `_bounds.dat`, consulted only in the `none` branch. -/
def resolveBounds (ov : Option (String × String)) (fileContents : Except ViewerError String) :
    Except ViewerError (List ℚ × List ℚ) :=
  match ov with
  | some (mn, mx) => do
    let minB ← read_bounds mn
    let maxB ← read_bounds mx
    Except.ok (minB, maxB)
  | none => do
    let contents ← fileContents
    resolveBoundsFromFile contents

/-! ## Job generation (`main.rs:170-184`) -/

/-- One rendering job: the loop index and its simulated time
`sample_time * i` (`main.rs:181`). -/
structure RenderJob where
  index : Nat
  time : ℚ
deriving DecidableEq, Repr

/-- The loop `for i in 0..=sample_number` (`main.rs:171`): one job per
index `0..sample_number` inclusive. -/
def generateJobs (sampleNumber : Nat) (sampleTime : ℚ) : List RenderJob :=
  (List.range (sampleNumber + 1)).map (fun i => { index := i, time := sampleTime * (i : ℚ) })

/-! ## Pre-dispatch setup (`main.rs:164-171`) -/

/-- Result of the setup phase: either jobs are dispatched, or the run
aborts first — with a `ViewerError` when a `?` propagated one, with
`none` when an `assert!`/`assert_eq!` panicked. -/
inductive SetupResult where
  | dispatched (jobs : List RenderJob) (dimension : Nat) (minBounds maxBounds : List ℚ)
  | aborted (e : Option ViewerError)
deriving DecidableEq, Repr

/-- Bounds resolution followed by the two assertions of `main.rs:164-166`
and job generation; mirrors the order: `assert_eq!(max.len(), min.len())`
first, then `assert!(dimension == 2 || dimension == 3)`. -/
def setup (sampleNumber : Nat) (sampleTime : ℚ) (ov : Option (String × String))
    (fileContents : Except ViewerError String) : SetupResult :=
  match resolveBounds ov fileContents with
  | Except.error e => SetupResult.aborted (some e)
  | Except.ok (minB, maxB) =>
    if maxB.length = minB.length then
      if maxB.length = 2 ∨ maxB.length = 3 then
        SetupResult.dispatched (generateJobs sampleNumber sampleTime) maxB.length minB maxB
      else SetupResult.aborted none
    else SetupResult.aborted none

/-! ## Per-job execution (`main.rs:178-226`) -/

/-- A job's outcome as sent on the channel: `Result<(usize, Option<i32>),
ViewerError>` (`main.rs:169`). -/
abbrev JobOutcome := Except ViewerError (Nat × Option Int)

/-- The external behaviour a single job meets: whether spawning gnuplot
succeeds, whether writing the script to its stdin succeeds, and the
outcome of waiting on it (`Option Int` is the process exit code). -/
structure JobEnv where
  spawnStep : Except ViewerError Unit
  writeStep : Except ViewerError Unit
  waitStep : Except ViewerError (Option Int)
deriving DecidableEq, Repr

/-- The closure body of `main.rs:179-224`: spawn, write the script, wait;
the first failing step's error is the outcome, otherwise
`Ok((i, exit_code))` for any exit code whatsoever. -/
def runJob (job : RenderJob) (env : JobEnv) : JobOutcome :=
  match env.spawnStep with
  | Except.error e => Except.error e
  | Except.ok _ =>
    match env.writeStep with
    | Except.error e => Except.error e
    | Except.ok _ =>
      match env.waitStep with
      | Except.error e => Except.error e
      | Except.ok code => Except.ok (job.index, code)

/-! ## The generated gnuplot script (`main.rs:195-218`) -/

/-- Truncation toward zero of a rational, matching Rust `f64` `%`
semantics (`a % b = a - trunc(a / b) * b`). -/
def ratTrunc (q : ℚ) : Int := q.num.tdiv (q.den : Int)

/-- Rust's `%` on `f64`, over ℚ. -/
def fmod (a b : ℚ) : ℚ := a - b * ((ratTrunc (a / b) : Int) : ℚ)

/-- One line of the generated gnuplot script, by semantic content: paths
are represented by the job index they embed, the title by the time value
formatted into it. -/
inductive GnuplotCmd where
  | setTerminal (size : String)
  | setViewEqualXYZ
  | setXYPlaneRelativeZero
  | setOutput (index : Nat)
  | setView (elevation azimuth : ℚ)
  | plotData (threeD : Bool) (ranges : List (ℚ × ℚ)) (index : Nat) (titleTime : ℚ)
      (pointType : String)
deriving DecidableEq, Repr

/-- The configuration shared read-only by every worker closure. -/
structure ScriptConfig where
  size : String
  pointType : String
  initialRotation : ℚ
  rotationSpeed : ℚ
  sampleTime : ℚ
  dimension : Nat
  minBounds : List ℚ
  maxBounds : List ℚ
deriving Repr

/-- The script written for job `i` (`main.rs:195-218`), line by line:
terminal, `set view equal xyz`, `set xyplane relative 0`, output path,
`set view 60,(initial_rotation + i * rotation_speed) % 360`, then `plot`
(dimension 2) or `splot` (otherwise) with the per-axis ranges
`[min_bounds[d]:max_bounds[d]]` for `d < dimension`, the data file, the
title embedding `sample_time * i`, and the point type. -/
def buildScript (cfg : ScriptConfig) (i : Nat) : List GnuplotCmd :=
  [ GnuplotCmd.setTerminal cfg.size,
    GnuplotCmd.setViewEqualXYZ,
    GnuplotCmd.setXYPlaneRelativeZero,
    GnuplotCmd.setOutput i,
    GnuplotCmd.setView 60 (fmod (cfg.initialRotation + (i : ℚ) * cfg.rotationSpeed) 360),
    GnuplotCmd.plotData (cfg.dimension != 2)
      ((cfg.minBounds.zip cfg.maxBounds).take cfg.dimension)
      i (cfg.sampleTime * (i : ℚ)) cfg.pointType ]

/-- clap default for `--initial-rotation` (`main.rs:92`). -/
def defaultInitialRotationStr : String := "45"

/-- clap default for `--rotation-speed` (`main.rs:99`). -/
def defaultRotationSpeedStr : String := "0.1"

/-! ## Aggregation (`main.rs:229-237`) -/

/-- The fold closure of `main.rs:232-236`:
`|num, result| { let (i, status) = result?; ...; Ok(num? + 1) }`.
An error-carrying message replaces the accumulator with its own error
(the `result?` runs first and discards `num`); a success message
increments an `Ok` accumulator and leaves an `Err` accumulator alone. -/
def aggregateStep (num : Except ViewerError Nat) (result : JobOutcome) :
    Except ViewerError Nat :=
  match result with
  | Except.error e => Except.error e
  | Except.ok _ =>
    match num with
    | Except.error e => Except.error e
    | Except.ok n => Except.ok (n + 1)

/-- Fold over a message list that also counts how many messages were
consumed — the consumption structure of `Iterator::fold`, which visits
every element of its iterator unconditionally. -/
def drainLoop : Except ViewerError Nat → List JobOutcome → Except ViewerError Nat × Nat
  | acc, [] => (acc, 0)
  | acc, m :: ms =>
    let r := drainLoop (aggregateStep acc m) ms
    (r.1, r.2 + 1)

/-- `rx.iter().take(job_number).fold(Ok(0), ...)` (`main.rs:229-236`),
with the channel contents given as the list `msgs`; second component is
the number of messages consumed. -/
def drainMessages (msgs : List JobOutcome) (jobNumber : Nat) :
    Except ViewerError Nat × Nat :=
  drainLoop (Except.ok 0) (msgs.take jobNumber)

/-- The aggregated batch result (the fold's value). -/
def aggregate (msgs : List JobOutcome) (jobNumber : Nat) : Except ViewerError Nat :=
  (drainMessages msgs jobNumber).1

/-- Outcome of the drain-and-assemble phase: `assembled` means control
reached the ffmpeg invocation (`main.rs:239-255`), `failed e` means the
`?` after the fold returned `Err(e)` from `main`, `panicked` means
`assert_eq!(finished, job_number)` failed. -/
inductive RunOutcome where
  | assembled
  | failed (e : ViewerError)
  | panicked
deriving DecidableEq, Repr

/-- `main.rs:229-239`: drain the channel, propagate a failure with `?`,
assert the count, and only then fall through to the ffmpeg child. -/
def drainAndAssemble (msgs : List JobOutcome) (jobNumber : Nat) : RunOutcome :=
  match aggregate msgs jobNumber with
  | Except.error e => RunOutcome.failed e
  | Except.ok finished =>
    if finished = jobNumber then RunOutcome.assembled else RunOutcome.panicked

/-- How many times the ffmpeg child is spawned: once iff control reaches
`main.rs:243`. -/
def ffmpegInvocations (msgs : List JobOutcome) (jobNumber : Nat) : Nat :=
  match drainAndAssemble msgs jobNumber with
  | RunOutcome.assembled => 1
  | _ => 0

/-- The error recorded after draining a message list: errors replace each
other in encounter order, successes never clear one — so the value is the
LAST error in the list, `none` when every message is a success. -/
def lastError : List JobOutcome → Option ViewerError
  | [] => none
  | Except.ok _ :: rest => lastError rest
  | Except.error e :: rest =>
    match lastError rest with
    | some e2 => some e2
    | none => some e

/-! ## Lemmas about the drain fold -/

theorem drainLoop_snd (acc : Except ViewerError Nat) (l : List JobOutcome) :
    (drainLoop acc l).2 = l.length := by
  induction l generalizing acc with
  | nil => rfl
  | cons m ms ih => simp [drainLoop, ih]

theorem drainLoop_fst (acc : Except ViewerError Nat) (l : List JobOutcome) :
    (drainLoop acc l).1 = l.foldl aggregateStep acc := by
  induction l generalizing acc with
  | nil => rfl
  | cons m ms ih => simp [drainLoop, ih, List.foldl]

theorem foldl_aggregateStep_ok (l : List JobOutcome) :
    ∀ k : Nat, lastError l = none →
      l.foldl aggregateStep (Except.ok k) = Except.ok (k + l.length) := by
  induction l with
  | nil => intro k _; rfl
  | cons m ms ih =>
    intro k h
    cases m with
    | ok p =>
      rw [lastError] at h
      have := ih (k + 1) h
      simp [List.foldl, aggregateStep, this, Nat.add_assoc, Nat.add_comm 1 ms.length]
    | error e =>
      rw [lastError] at h
      cases h2 : lastError ms <;> simp [h2] at h

theorem foldl_aggregateStep_keeps_error (l : List JobOutcome) :
    ∀ e : ViewerError, lastError l = none →
      l.foldl aggregateStep (Except.error e) = Except.error e := by
  induction l with
  | nil => intro e _; rfl
  | cons m ms ih =>
    intro e h
    cases m with
    | ok p =>
      rw [lastError] at h
      simp [List.foldl, aggregateStep, ih e h]
    | error e2 =>
      rw [lastError] at h
      cases h2 : lastError ms <;> simp [h2] at h

theorem foldl_aggregateStep_error (l : List JobOutcome) :
    ∀ (acc : Except ViewerError Nat) (e : ViewerError), lastError l = some e →
      l.foldl aggregateStep acc = Except.error e := by
  induction l with
  | nil => intro acc e h; rw [lastError] at h; cases h
  | cons m ms ih =>
    intro acc e h
    cases m with
    | ok p =>
      rw [lastError] at h
      cases acc with
      | ok k => simp [List.foldl, aggregateStep, ih _ e h]
      | error e2 => simp [List.foldl, aggregateStep, ih _ e h]
    | error e0 =>
      rw [lastError] at h
      cases h2 : lastError ms with
      | some e2 =>
        rw [h2] at h
        cases h
        simp [List.foldl, aggregateStep, ih _ e h2]
      | none =>
        rw [h2] at h
        cases h
        simp [List.foldl, aggregateStep, foldl_aggregateStep_keeps_error ms e h2]

theorem lastError_none_iff (l : List JobOutcome) :
    lastError l = none ↔ ∀ m ∈ l, ∃ p, m = Except.ok p := by
  induction l with
  | nil => simp [lastError]
  | cons m ms ih =>
    cases m with
    | ok p =>
      rw [lastError]
      simp only [List.mem_cons, ih]
      constructor
      · intro h m hm
        rcases hm with rfl | hm
        · exact ⟨p, rfl⟩
        · exact h m hm
      · intro h m hm; exact h m (Or.inr hm)
    | error e =>
      constructor
      · intro h; cases h2 : lastError ms <;> rw [lastError, h2] at h <;> cases h
      · intro h
        rcases h _ (List.mem_cons_self _ _) with ⟨p, hp⟩
        cases hp

theorem lastError_mem (l : List JobOutcome) (e : ViewerError) :
    lastError l = some e → Except.error e ∈ l := by
  induction l with
  | nil => intro h; rw [lastError] at h; cases h
  | cons m ms ih =>
    intro h
    cases m with
    | ok p =>
      rw [lastError] at h
      exact List.mem_cons_of_mem _ (ih h)
    | error e0 =>
      cases h2 : lastError ms with
      | some e2 =>
        rw [lastError, h2] at h
        cases h
        exact List.mem_cons_of_mem _ (ih h2)
      | none =>
        rw [lastError, h2] at h
        cases h
        exact List.mem_cons_self _ _

theorem aggregate_eq_foldl (msgs : List JobOutcome) (n : Nat) (h : msgs.length = n) :
    aggregate msgs n = msgs.foldl aggregateStep (Except.ok 0) := by
  subst h
  rw [aggregate, drainMessages, drainLoop_fst, List.take_length]

theorem aggregate_all_ok (msgs : List JobOutcome) (n : Nat) (h : msgs.length = n)
    (hok : lastError msgs = none) : aggregate msgs n = Except.ok n := by
  rw [aggregate_eq_foldl msgs n h, foldl_aggregateStep_ok msgs 0 hok, Nat.zero_add, h]

theorem aggregate_error (msgs : List JobOutcome) (n : Nat) (e : ViewerError)
    (h : msgs.length = n) (he : lastError msgs = some e) :
    aggregate msgs n = Except.error e := by
  rw [aggregate_eq_foldl msgs n h, foldl_aggregateStep_error msgs _ e he]

theorem drainAndAssemble_all_ok (msgs : List JobOutcome) (n : Nat) (h : msgs.length = n)
    (hok : lastError msgs = none) : drainAndAssemble msgs n = RunOutcome.assembled := by
  rw [drainAndAssemble, aggregate_all_ok msgs n h hok]
  simp

theorem drainAndAssemble_error (msgs : List JobOutcome) (n : Nat) (e : ViewerError)
    (h : msgs.length = n) (he : lastError msgs = some e) :
    drainAndAssemble msgs n = RunOutcome.failed e := by
  rw [drainAndAssemble, aggregate_error msgs n e h he]

/-! ## Claim theorems -/

/-- C1: for a dispatched batch of `job_count` messages on the results
channel, the fold `rx.iter().take(job_number).fold(..)` consumes exactly
`job_count` messages — no more, no fewer — including when some of the
messages carry an error outcome (the `?` sits inside the fold closure, so
the fold keeps draining after a failure is recorded). -/
theorem C1_drain_exact_count (msgs : List JobOutcome) (n : Nat) (h : msgs.length = n) :
    (drainMessages msgs n).2 = n := by
  subst h
  rw [drainMessages, drainLoop_snd, List.take_length]

/-- C1 witness: a batch of three messages, two of them error outcomes,
is drained in full. -/
theorem C1_drain_exact_count_witness :
    ([Except.error ViewerError.parseFloat, Except.ok (1, some 0),
        Except.error (ViewerError.other "wait failed")] : List JobOutcome).length = 3
    ∧ (drainMessages
        [Except.error ViewerError.parseFloat, Except.ok (1, some 0),
          Except.error (ViewerError.other "wait failed")] 3).2 = 3 :=
  ⟨rfl, C1_drain_exact_count _ 3 rfl⟩

/-- C2: the ffmpeg child is spawned exactly once iff every drained
outcome is a success; if any outcome carries an error, ffmpeg is never
spawned and the run's result is `failed e` for an error `e` taken from
the drained messages (the `?` after the fold propagates it out of
`main`). -/
theorem C2_assembler_gate (msgs : List JobOutcome) (n : Nat) (h : msgs.length = n) :
    (ffmpegInvocations msgs n = 1 ↔ ∀ m ∈ msgs, ∃ p, m = Except.ok p)
    ∧ ((∃ e, Except.error e ∈ msgs) →
        ffmpegInvocations msgs n = 0
        ∧ ∃ e, drainAndAssemble msgs n = RunOutcome.failed e ∧ Except.error e ∈ msgs) := by
  constructor
  · constructor
    · intro h1
      rw [← lastError_none_iff]
      cases h2 : lastError msgs with
      | none => rfl
      | some e =>
        rw [ffmpegInvocations, drainAndAssemble_error msgs n e h h2] at h1
        cases h1
    · intro h1
      rw [ffmpegInvocations, drainAndAssemble_all_ok msgs n h ((lastError_none_iff msgs).mpr h1)]
  · rintro ⟨e, he⟩
    cases h2 : lastError msgs with
    | none =>
      rcases (lastError_none_iff msgs).mp h2 _ he with ⟨p, hp⟩
      cases hp
    | some e2 =>
      refine ⟨?_, e2, drainAndAssemble_error msgs n e2 h h2, lastError_mem msgs e2 h2⟩
      rw [ffmpegInvocations, drainAndAssemble_error msgs n e2 h h2]

/-- C2 witness: an all-success batch reaches ffmpeg; a batch with a
failed spawn does not, and the recorded failure comes from the drained
messages. -/
theorem C2_assembler_gate_witness :
    (ffmpegInvocations [Except.ok (0, some 0), Except.ok (1, some 0)] 2 = 1
      ↔ ∀ m ∈ ([Except.ok (0, some 0), Except.ok (1, some 0)] : List JobOutcome),
          ∃ p, m = Except.ok p)
    ∧ (ffmpegInvocations [Except.error (ViewerError.ioError "spawn"), Except.ok (1, some 0)] 2 = 0
        ∧ ∃ e, drainAndAssemble
              [Except.error (ViewerError.ioError "spawn"), Except.ok (1, some 0)] 2
            = RunOutcome.failed e
          ∧ Except.error e ∈
              ([Except.error (ViewerError.ioError "spawn"), Except.ok (1, some 0)] :
                List JobOutcome)) :=
  ⟨(C2_assembler_gate [Except.ok (0, some 0), Except.ok (1, some 0)] 2 rfl).1,
   (C2_assembler_gate [Except.error (ViewerError.ioError "spawn"), Except.ok (1, some 0)] 2
      rfl).2 ⟨ViewerError.ioError "spawn", by simp⟩⟩

/-- C3 counterexample: the claim says a recorded failure is never
overwritten by a later failure, but the fold closure runs `result?`
before `num?`, so with two error messages the batch reports the SECOND
error, not the first. -/
theorem C3_first_error_counterexample :
    aggregate [Except.error ViewerError.parseFloat,
        Except.error (ViewerError.other "later failure")] 2
      = Except.error (ViewerError.other "later failure")
    ∧ ViewerError.other "later failure" ≠ ViewerError.parseFloat :=
  ⟨rfl, by decide⟩

/-- C3 amended: the batch result reports the LAST-encountered failure: a
recorded failure survives every later success (a success message leaves
an error accumulator unchanged), but each later failure replaces it, so
the reported cause is the final error in channel order. -/
theorem C3_last_error_reported (msgs : List JobOutcome) (n : Nat) (e : ViewerError)
    (h : msgs.length = n) (he : lastError msgs = some e) :
    aggregate msgs n = Except.error e :=
  aggregate_error msgs n e h he

/-- C3 witness: an error followed by a success and a second error yields
the second error. -/
theorem C3_last_error_reported_witness :
    lastError [Except.error ViewerError.parseFloat, Except.ok (0, some 0),
        Except.error (ViewerError.other "later failure")]
      = some (ViewerError.other "later failure")
    ∧ aggregate [Except.error ViewerError.parseFloat, Except.ok (0, some 0),
        Except.error (ViewerError.other "later failure")] 3
      = Except.error (ViewerError.other "later failure") :=
  ⟨rfl, C3_last_error_reported _ 3 _ rfl rfl⟩

/-- C9: the `assert_eq!(finished, job_number)` after the drain is only
reached when the fold produced `Ok` — which forces every drained outcome
to be a success and the count to equal `job_count` — and then it holds,
so the post-drain phase can never panic. -/
theorem C9_assert_never_fails (msgs : List JobOutcome) (n : Nat) (h : msgs.length = n) :
    (∀ m, aggregate msgs n = Except.ok m → (∀ x ∈ msgs, ∃ p, x = Except.ok p) ∧ m = n)
    ∧ drainAndAssemble msgs n ≠ RunOutcome.panicked := by
  constructor
  · intro m hm
    cases h2 : lastError msgs with
    | none =>
      rw [aggregate_all_ok msgs n h h2] at hm
      cases hm
      exact ⟨(lastError_none_iff msgs).mp h2, rfl⟩
    | some e =>
      rw [aggregate_error msgs n e h h2] at hm
      cases hm
  · cases h2 : lastError msgs with
    | none => rw [drainAndAssemble_all_ok msgs n h h2]; intro hc; cases hc
    | some e => rw [drainAndAssemble_error msgs n e h h2]; intro hc; cases hc

/-- C9 witness: a one-message all-success batch satisfies the assertion
and does not panic. -/
theorem C9_assert_never_fails_witness :
    ((∀ x ∈ ([Except.ok (0, some 0)] : List JobOutcome), ∃ p, x = Except.ok p) ∧ 1 = 1)
    ∧ drainAndAssemble [Except.ok (0, some 0)] 1 ≠ RunOutcome.panicked :=
  ⟨(C9_assert_never_fails [Except.ok (0, some 0)] 1 rfl).1 1 rfl,
   (C9_assert_never_fails [Except.ok (0, some 0)] 1 rfl).2⟩

/-- C4: for every sample count `S` and sample time `T` the loop
`for i in 0..=sample_number` produces exactly `S + 1` jobs whose indices
are `0..S` in order with no gaps or duplicates, job `i` carrying time
`sample_time * i` (equal to the claim's `i × T` by commutativity);
`S = 0` yields the single job of index 0. -/
theorem C4_job_generator (S : Nat) (T : ℚ) :
    (generateJobs S T).length = S + 1
    ∧ (generateJobs S T).map RenderJob.index = List.range (S + 1)
    ∧ (∀ j ∈ generateJobs S T, j.time = T * (j.index : ℚ))
    ∧ generateJobs 0 T = [{ index := 0, time := 0 }] := by
  refine ⟨by simp [generateJobs], ?_, ?_, ?_⟩
  · simp [generateJobs, List.map_map]
    exact List.map_id _
  · intro j hj
    rcases List.mem_map.mp hj with ⟨i, _, rfl⟩
    rfl
  · simp [generateJobs, List.range_succ]

/-- C4 witness: with `S = 2`, `T = 1/2` the job of index 1 carries time
`T * 1`. -/
theorem C4_job_generator_witness :
    ({ index := 1, time := 1 / 2 } : RenderJob).time
      = (1 / 2 : ℚ) * (({ index := 1, time := 1 / 2 } : RenderJob).index : ℚ) :=
  (C4_job_generator 2 (1 / 2)).2.2.1 { index := 1, time := 1 / 2 }
    (List.mem_map.mpr ⟨1, by simp, by norm_num⟩)

/-- C6: when the `--min-bounds`/`--max-bounds` override is supplied, the
resolved bounds depend only on the two override strings — the
`_bounds.dat` branch is never taken, so the result is identical whatever
the file read returns (contents or I/O error). -/
theorem C6_override_ignores_file (mn mx : String) (f1 f2 : Except ViewerError String) :
    resolveBounds (some (mn, mx)) f1 = resolveBounds (some (mn, mx)) f2 := rfl

/-- C7: a job whose gnuplot child is spawned, written to and waited on
successfully yields `Ok((index, exit_code))` for ANY exit code (the code
is reported, never classified); an error outcome arises only from a
spawn, write or wait failure; and a batch whose outcomes are all
successes with non-zero exit codes still reaches the ffmpeg step. -/
theorem C7_exit_code_not_classified (job : RenderJob) (env : JobEnv) :
    (∀ code, env.spawnStep = Except.ok () → env.writeStep = Except.ok () →
        env.waitStep = Except.ok code → runJob job env = Except.ok (job.index, code))
    ∧ (∀ e, runJob job env = Except.error e →
        env.spawnStep = Except.error e ∨ env.writeStep = Except.error e ∨
          env.waitStep = Except.error e)
    ∧ (∀ msgs n, msgs.length = n →
        (∀ m ∈ msgs, ∃ i k, m = Except.ok (i, some k) ∧ k ≠ 0) →
        ffmpegInvocations msgs n = 1) := by
  refine ⟨?_, ?_, ?_⟩
  · intro code h1 h2 h3
    rw [runJob, h1, h2, h3]
  · intro e h
    rw [runJob] at h
    cases hs : env.spawnStep with
    | error e1 => rw [hs] at h; cases h; exact Or.inl rfl
    | ok u =>
      rw [hs] at h
      cases hw : env.writeStep with
      | error e1 => rw [hw] at h; cases h; exact Or.inr (Or.inl rfl)
      | ok u2 =>
        rw [hw] at h
        cases ht : env.waitStep with
        | error e1 => rw [ht] at h; cases h; exact Or.inr (Or.inr rfl)
        | ok c => rw [ht] at h; cases h
  · intro msgs n hn hall
    rw [ffmpegInvocations, drainAndAssemble_all_ok msgs n hn]
    rw [lastError_none_iff]
    intro m hm
    rcases hall m hm with ⟨i, k, rfl, _⟩
    exact ⟨(i, some k), rfl⟩

/-- C7 witness: a job whose child exits with the non-zero code 2 is a
success carrying that code, and a two-job batch of non-zero exits still
invokes ffmpeg once. -/
theorem C7_exit_code_not_classified_witness :
    runJob { index := 5, time := 0 }
        { spawnStep := Except.ok (), writeStep := Except.ok (),
          waitStep := Except.ok (some 2) }
      = Except.ok (5, some 2)
    ∧ ffmpegInvocations [Except.ok (0, some 1), Except.ok (1, some 3)] 2 = 1 :=
  ⟨(C7_exit_code_not_classified { index := 5, time := 0 }
      { spawnStep := Except.ok (), writeStep := Except.ok (),
        waitStep := Except.ok (some 2) }).1 (some 2) rfl rfl rfl,
   (C7_exit_code_not_classified { index := 5, time := 0 }
      { spawnStep := Except.ok (), writeStep := Except.ok (),
        waitStep := Except.ok (some 2) }).2.2
     [Except.ok (0, some 1), Except.ok (1, some 3)] 2 rfl
     (by
       intro m hm
       rcases List.mem_cons.mp hm with rfl | hm2
       · exact ⟨0, 1, rfl, by decide⟩
       rcases List.mem_cons.mp hm2 with rfl | hm3
       · exact ⟨1, 3, rfl, by decide⟩
       · cases hm3)⟩

/-- C8: a bounds-resolution error (including any float-parse failure)
propagates with `?` before the pool is created, and resolved bounds of
unequal lengths or of a dimension other than 2 or 3 fail the assertions
of `main.rs:164-166`; either way setup ends in `aborted`, which is never
`dispatched`, so no job reaches the worker pool. -/
theorem C8_validation_aborts (S : Nat) (T : ℚ) (ov : Option (String × String))
    (fileContents : Except ViewerError String) :
    (∀ e, resolveBounds ov fileContents = Except.error e →
        setup S T ov fileContents = SetupResult.aborted (some e))
    ∧ (∀ minB maxB, resolveBounds ov fileContents = Except.ok (minB, maxB) →
        (minB.length ≠ maxB.length ∨ (maxB.length ≠ 2 ∧ maxB.length ≠ 3)) →
        setup S T ov fileContents = SetupResult.aborted none)
    ∧ (∀ e2 jobs dim mnB mxB, setup S T ov fileContents = SetupResult.aborted e2 →
        setup S T ov fileContents ≠ SetupResult.dispatched jobs dim mnB mxB) := by
  refine ⟨?_, ?_, ?_⟩
  · intro e h
    rw [setup, h]
  · intro minB maxB h hbad
    simp only [setup, h]
    by_cases hlen : maxB.length = minB.length
    · rcases hbad with hne | ⟨h2, h3⟩
      · exact absurd hlen (Ne.symm hne)
      · rw [if_pos hlen, if_neg]
        rintro (hc | hc)
        · exact h2 hc
        · exact h3 hc
    · rw [if_neg hlen]
  · intro e2 jobs dim mnB mxB h hc
    rw [h] at hc
    cases hc

/-- C8 witness: an unparseable `--min-bounds` override aborts the run
with the parse error before any dispatch. -/
theorem C8_validation_aborts_witness :
    setup 0 1 (some ("abc", "1 2")) (Except.error (ViewerError.ioError "unreadable"))
      = SetupResult.aborted (some ViewerError.parseFloat) :=
  (C8_validation_aborts 0 1 (some ("abc", "1 2"))
      (Except.error (ViewerError.ioError "unreadable"))).1 ViewerError.parseFloat rfl

/-- C5 counterexample: the claim says that with fewer than two usable
lines resolution fails with a missing-bounds-line error, but a file whose
single usable line does not parse as floats fails with the float-parse
error instead — `read_bounds` runs on the first line before the second
line is fetched. -/
theorem C5_single_bad_line_counterexample :
    (usableLines (rustLines "abc\n")).length < 2
    ∧ resolveBoundsFromFile "abc\n" = Except.error ViewerError.parseFloat
    ∧ (∀ s, ViewerError.parseFloat ≠ ViewerError.other s) :=
  ⟨by decide, rfl, by intro s h; cases h⟩

/-- C5 amended: blank lines and lines whose first non-whitespace
character is `'#'` are skipped; the first two remaining lines are parsed
as min then max bounds (`"-1 -1\n1 1\n"` gives `min=[-1,-1], max=[1,1]`;
`"# comment\n\n0 0 0\n5 5 5\n"` gives `min=[0,0,0], max=[5,5,5]`); with
fewer than two usable lines resolution fails without producing bounds:
with no usable line it is the min-bounds-missing error, with exactly one
usable line it is the max-bounds-missing error when that line parses,
and the parse error otherwise. -/
theorem C5_bounds_file_resolution :
    resolveBoundsFromFile "-1 -1\n1 1\n" = Except.ok ([-1, -1], [1, 1])
    ∧ resolveBoundsFromFile "# comment\n\n0 0 0\n5 5 5\n" = Except.ok ([0, 0, 0], [5, 5, 5])
    ∧ (∀ contents, usableLines (rustLines contents) = [] →
        resolveBoundsFromFile contents
          = Except.error (ViewerError.other "min bounds line missing"))
    ∧ (∀ contents l minB, usableLines (rustLines contents) = [l] →
        readBoundsChars l = Except.ok minB →
        resolveBoundsFromFile contents
          = Except.error (ViewerError.other "max bounds line missing"))
    ∧ (∀ contents l e rest, usableLines (rustLines contents) = l :: rest →
        readBoundsChars l = Except.error e →
        resolveBoundsFromFile contents = Except.error e) := by
  have r1 : readBoundsChars ['-', '1', ' ', '-', '1'] = Except.ok [-1, -1] := by
    simp +decide [readBoundsChars, splitChar, trimChars, isWs, parseFloatChars, parseSign,
      breakAt, parseMantissa, digitsValue, charDigit, parseExponent, List.mapM, List.mapM.loop]
  have r2 : readBoundsChars ['1', ' ', '1'] = Except.ok [1, 1] := by
    simp +decide [readBoundsChars, splitChar, trimChars, isWs, parseFloatChars, parseSign,
      breakAt, parseMantissa, digitsValue, charDigit, parseExponent, List.mapM, List.mapM.loop]
  have r3 : readBoundsChars ['0', ' ', '0', ' ', '0'] = Except.ok [0, 0, 0] := by
    simp +decide [readBoundsChars, splitChar, trimChars, isWs, parseFloatChars, parseSign,
      breakAt, parseMantissa, digitsValue, charDigit, parseExponent, List.mapM, List.mapM.loop]
  have r4 : readBoundsChars ['5', ' ', '5', ' ', '5'] = Except.ok [5, 5, 5] := by
    simp +decide [readBoundsChars, splitChar, trimChars, isWs, parseFloatChars, parseSign,
      breakAt, parseMantissa, digitsValue, charDigit, parseExponent, List.mapM, List.mapM.loop]
  refine ⟨?_, ?_, ?_, ?_, ?_⟩
  · have e1 : usableLines (rustLines "-1 -1\n1 1\n")
        = [['-', '1', ' ', '-', '1'], ['1', ' ', '1']] := rfl
    simp only [resolveBoundsFromFile, e1, r1, r2]
  · have e2 : usableLines (rustLines "# comment\n\n0 0 0\n5 5 5\n")
        = [['0', ' ', '0', ' ', '0'], ['5', ' ', '5', ' ', '5']] := rfl
    simp only [resolveBoundsFromFile, e2, r3, r4]
  · intro contents h
    simp only [resolveBoundsFromFile, h]
  · intro contents l minB h hb
    simp only [resolveBoundsFromFile, h, hb]
  · intro contents l e rest h hb
    simp only [resolveBoundsFromFile, h, hb]

/-- C5 witness: an empty file has no usable line and fails with the
min-bounds-missing error; a file whose sole usable line is `"1 1"` fails
with the max-bounds-missing error. -/
theorem C5_bounds_file_resolution_witness :
    resolveBoundsFromFile "" = Except.error (ViewerError.other "min bounds line missing")
    ∧ resolveBoundsFromFile "1 1\n"
        = Except.error (ViewerError.other "max bounds line missing") :=
  ⟨C5_bounds_file_resolution.2.2.1 "" rfl,
   C5_bounds_file_resolution.2.2.2.1 "1 1\n" ['1', ' ', '1'] [1, 1] rfl
     (by
       simp +decide [readBoundsChars, splitChar, trimChars, isWs, parseFloatChars, parseSign,
         breakAt, parseMantissa, digitsValue, charDigit, parseExponent, List.mapM,
         List.mapM.loop])⟩

/-- C10: the script generated for job `i` contains exactly one
`set view` line, with elevation 60 and azimuth
`(initial_rotation + i * rotation_speed) % 360` (Rust `f64` remainder);
the clap defaults for the two CLI values parse to 45 and 0.1. -/
theorem C10_view_rotation (cfg : ScriptConfig) (i : Nat) :
    GnuplotCmd.setView 60 (fmod (cfg.initialRotation + (i : ℚ) * cfg.rotationSpeed) 360)
        ∈ buildScript cfg i
    ∧ (∀ e a, GnuplotCmd.setView e a ∈ buildScript cfg i →
        e = 60 ∧ a = fmod (cfg.initialRotation + (i : ℚ) * cfg.rotationSpeed) 360)
    ∧ parseFloatChars defaultInitialRotationStr.toList = some 45
    ∧ parseFloatChars defaultRotationSpeedStr.toList = some (1 / 10) := by
  refine ⟨by simp [buildScript], ?_, ?_, ?_⟩
  · intro e a ha
    simp [buildScript] at ha
    exact ha
  · have h : parseFloatChars defaultInitialRotationStr.toList = parseFloatChars ['4', '5'] := rfl
    rw [h]
    simp +decide [parseFloatChars, parseSign, breakAt, parseMantissa, digitsValue, charDigit,
      parseExponent]
  · have h : parseFloatChars defaultRotationSpeedStr.toList
        = parseFloatChars ['0', '.', '1'] := rfl
    rw [h]
    simp +decide [parseFloatChars, parseSign, breakAt, parseMantissa, digitsValue, charDigit,
      parseExponent]

/-- C10 witness: with the default rotation values and job index 2 the
`set view` line present in the script carries elevation 60 and the `%
360` azimuth. -/
theorem C10_view_rotation_witness :
    (60 : ℚ) = 60
    ∧ fmod ((45 : ℚ) + ((2 : Nat) : ℚ) * (1 / 10)) 360
        = fmod ((45 : ℚ) + ((2 : Nat) : ℚ) * (1 / 10)) 360 :=
  (C10_view_rotation
      { size := "1920,1080", pointType := "1", initialRotation := 45,
        rotationSpeed := 1 / 10, sampleTime := 1 / 2, dimension := 3,
        minBounds := [0, 0, 0], maxBounds := [1, 1, 1] } 2).2.1 60
    (fmod ((45 : ℚ) + ((2 : Nat) : ℚ) * (1 / 10)) 360) (by simp [buildScript])

end NBodyViewer
